import Mathlib

/-!
# Verification of the fastformat columnar codec and domain record layer

Shallow embedding of the `fastformat` repository (crates
`fastformat-converter` and `fastformat-datatypes`), covering:

* the owned extractor `FastFormatArrowRawData` and the builder
  (`libraries/converter/src/arrow.rs`);
* the borrowed viewer `ArrowDataViewer`
  (`libraries/converter/src/arrow/viewer.rs`);
* the `Image` domain type, its constructors, channel-swap conversions and
  Arrow codec (`libraries/datatypes/src/image.rs`, `image/*.rs`);
* the `BBox` domain type, its constructors and coordinate conversions
  (`libraries/datatypes/src/bbox.rs`, `bbox/*.rs`).

Modelling conventions:

* Rust `Result<T, eyre::Report>` becomes `Outcome T`: `ok`, `err e` (a
  typed error mirroring each distinct source error message), or `panic`
  for an uncatchable fault (out-of-bounds index, failed downcast assert).
* Machine integers are `Nat` with explicit `% 2 ^ 32` where the source
  computes in `u32` (release-mode wrapping semantics).
* `f32` payloads are carried as `Rat`: the claims below only move, copy
  or add/subtract exactly representable values, never rely on rounding.
* `Cow<[T]>` becomes `CowT`: `borrowed l` / `owned l`.  `Cow::to_mut`
  clones a borrowed slice into a fresh owned vector, so a mutating
  conversion on a borrowed payload returns an `owned` buffer and can
  never write through the `borrowed` source, which is read-only here.
* `HashMap<String, _>` becomes an association list with
  insert-overwrites / remove / lookup mirroring map semantics.
* UTF-8 byte buffers are modelled at code-point granularity
  (`List Char`): string-array offsets count code points instead of
  bytes, builder-produced buffers are valid UTF-8 by construction, and
  `from_utf8` on slices taken at those offsets succeeds.  None of the
  claims under study exercises invalid UTF-8.
* `arrow::buffer::Buffer::into_vec::<T>` succeeds exactly when the
  buffer is exclusively held (reference count one, `shared = false`)
  and was built as a `Vec<T>` of the same element type; otherwise it
  hands the buffer back and the caller reports an error.
-/

namespace FastFormat

/-- Error taxonomy: one constructor per distinct error message produced by
the source paths modelled here. -/
inductive Err where
  /-- "Invalid field {field} for this map of data" -/
  | fieldMissing (field : String)
  /-- "No offset associated with field {field}" -/
  | noOffset (field : String)
  /-- `primitive_array`: "Invalid primitive array type. Or the buffer is
  shared. ..." -/
  | bufferSharedOrInvalid
  /-- `ArrowDataViewer::utf8_array`: "Not implemented" -/
  | notImplemented
  /-- `Encoding::from_string`: "Invalid String Encoding {s}" -/
  | invalidEncoding (s : String)
  /-- domain constructors: length validation failure -/
  | lengthMismatch (msg : String)
  /-- `ImageData::into_u8` & friends / unsupported image conversion -/
  | cantConvert (msg : String)
  /-- bbox loops: "Not enough data matching 4 values per box!" -/
  | notEnoughData
deriving DecidableEq, Repr

/-- Result of running a fallible Rust operation: a value, a typed error
(`eyre::Report`), or an uncatchable panic. -/
inductive Outcome (α : Type) where
  | ok (value : α)
  | err (e : Err)
  | panic
deriving DecidableEq, Repr

namespace Outcome

def bind {α β : Type} : Outcome α → (α → Outcome β) → Outcome β
  | ok v, f => f v
  | err e, _ => err e
  | panic, _ => panic

end Outcome

/-- `std::borrow::Cow<[α]>`: a payload that is either a borrowed slice of
some buffer owned elsewhere, or an owned vector. -/
inductive CowT (α : Type) where
  | borrowed (l : List α)
  | owned (l : List α)
deriving DecidableEq, Repr

namespace CowT

/-- Read access to the underlying slice (`Deref` on `Cow`). -/
def toList {α : Type} : CowT α → List α
  | borrowed l => l
  | owned l => l

/-- `Cow::into_owned`: the owned vector (cloning a borrowed slice). -/
def into_owned {α : Type} : CowT α → List α
  | borrowed l => l
  | owned l => l

end CowT

/-! ## Association-list model of `HashMap<String, α>` -/

/-- `HashMap::get`. -/
def mapLookup {α : Type} : List (String × α) → String → Option α
  | [], _ => none
  | (k, v) :: rest, key => if k = key then some v else mapLookup rest key

/-- `HashMap::remove` (drops the key's binding). -/
def mapRemoveKey {α : Type} (m : List (String × α)) (key : String) :
    List (String × α) :=
  m.filter (fun p => p.1 ≠ key)

/-- `HashMap::insert` (overwrites any existing binding). -/
def mapInsert {α : Type} (m : List (String × α)) (key : String) (v : α) :
    List (String × α) :=
  (key, v) :: mapRemoveKey m key

/-! ## Wire model: union children, buffers, string arrays -/

/-- Element-type tag of a primitive Arrow buffer, for the three
`ArrowPrimitiveType` instantiations the repository uses. -/
inductive Tag where
  | u8
  | u32
  | f32
deriving DecidableEq, Repr

/-- A typed primitive buffer (`arrow::buffer::Buffer` plus the element
type it was built with).  `u8`/`u32` elements are `Nat`, `f32` elements
are `Rat`. -/
inductive TypedBuf where
  | u8 (vals : List Nat)
  | u32 (vals : List Nat)
  | f32 (vals : List Rat)
deriving DecidableEq, Repr

/-- The element-type tag a buffer was built with. -/
def TypedBuf.tag : TypedBuf → Tag
  | .u8 _ => .u8
  | .u32 _ => .u32
  | .f32 _ => .f32

/-- A string array's backing stores: the concatenated character data and
the `n + 1` cumulative offsets delimiting the `n` strings. -/
structure StrBuf where
  chars : List Char
  offsets : List Nat
deriving DecidableEq, Repr

/-- Cumulative offsets of a string list, starting from `acc`. -/
def offsetsFrom (acc : Nat) : List String → List Nat
  | [] => [acc]
  | s :: rest => acc :: offsetsFrom (acc + s.data.length) rest

/-- `StringArray::from(values)`: concatenated data plus offsets
(`offset[0] = 0`). -/
def stringArrayFrom (values : List String) : StrBuf :=
  { chars := (values.map String.data).flatten, offsets := offsetsFrom 0 values }

/-- One union child of a wire record: a primitive array (buffer plus its
sharing state: `shared = true` models a reference count greater than
one) or a string array. -/
inductive Child where
  | prim (buf : TypedBuf) (shared : Bool)
  | strs (sb : StrBuf)
deriving DecidableEq, Repr

/-- An entry of the extractor's `buffers` map: either a primitive buffer
kept with its type and sharing state, or the byte store of a loaded
UTF-8 field. -/
inductive RawBuf where
  | typed (buf : TypedBuf) (shared : Bool)
  | chars (cs : List Char)
deriving DecidableEq, Repr

/-- A wire record (`arrow::array::ArrayData` of a dense union): the named
children in push order.  The builder assigns slot index `i` to the
`i`-th push, so indices are positional and always valid here. -/
abbrev Wire := List (String × Child)

/-! ## `FastFormatArrowBuilder` (`libraries/converter/src/arrow.rs`) -/

/-- The builder state: children pushed so far, in order.  (The source
also records the `DataType` and nullability of each `Field`; they only
populate wire metadata and are not consulted by any extraction path
modelled here.) -/
abbrev Builder := List (String × Child)

namespace Builder

/-- `push_primitive_singleton::<UInt32Type>`: a one-element owned array. -/
def push_primitive_singleton_u32 (b : Builder) (field : String) (value : Nat) :
    Builder :=
  b ++ [(field, .prim (.u32 [value]) false)]

/-- `push_primitive_array::<UInt8Type>`: a freshly owned array. -/
def push_primitive_array_u8 (b : Builder) (field : String)
    (values : List Nat) : Builder :=
  b ++ [(field, .prim (.u8 values) false)]

/-- `push_primitive_array::<UInt32Type>`. -/
def push_primitive_array_u32 (b : Builder) (field : String)
    (values : List Nat) : Builder :=
  b ++ [(field, .prim (.u32 values) false)]

/-- `push_primitive_array::<Float32Type>`. -/
def push_primitive_array_f32 (b : Builder) (field : String)
    (values : List Rat) : Builder :=
  b ++ [(field, .prim (.f32 values) false)]

/-- `push_utf_singleton`: `StringArray::from(vec![value])`. -/
def push_utf_singleton (b : Builder) (field : String) (value : String) :
    Builder :=
  b ++ [(field, .strs (stringArrayFrom [value]))]

/-- `push_utf_array`: `StringArray::from(values)`. -/
def push_utf_array (b : Builder) (field : String) (values : List String) :
    Builder :=
  b ++ [(field, .strs (stringArrayFrom values))]

/-- `into_arrow` / `build`: assemble the dense union.  For wires built by
the push functions above the field indices are sequential and valid, so
`UnionArray::try_new` succeeds. -/
def into_arrow (b : Builder) : Outcome Wire := .ok b

end Builder

/-! ## `FastFormatArrowRawData` (`libraries/converter/src/arrow.rs`) -/

/-- The owned extractor's decomposition state. -/
structure RawData where
  buffers : List (String × RawBuf)
  offset_buffers : List (String × List Nat)
  array_data : List (String × Child)
deriving DecidableEq, Repr

namespace RawData

/-- `FastFormatArrowRawData::new`: unpack the union into a name → child
map.  Wires are positional lists here, so the malformed-index error path
of the source is unrepresentable. -/
def new (wire : Wire) : RawData :=
  { buffers := [], offset_buffers := [],
    array_data := wire.foldl (fun m kv => mapInsert m kv.1 kv.2) [] }

/-- `load_primitive::<T>`: move the field's child out of `array_data`,
downcast it to a `PrimitiveArray<T>` (the downcast asserts on a
datatype mismatch, an uncatchable fault) and stash its buffer. -/
def load_primitive (t : Tag) (raw : RawData) (field : String) :
    Outcome RawData :=
  match mapLookup raw.array_data field with
  | none => .err (.fieldMissing field)
  | some (.prim buf shared) =>
      if buf.tag = t then
        .ok { buffers := mapInsert raw.buffers field (.typed buf shared),
              offset_buffers := raw.offset_buffers,
              array_data := mapRemoveKey raw.array_data field }
      else .panic
  | some (.strs _) => .panic

/-- `load_utf`: move the field's child out of `array_data`, downcast it
to a `StringArray` (asserts on mismatch) and stash its value and offset
buffers. -/
def load_utf (raw : RawData) (field : String) : Outcome RawData :=
  match mapLookup raw.array_data field with
  | none => .err (.fieldMissing field)
  | some (.strs sb) =>
      .ok { buffers := mapInsert raw.buffers field (.chars sb.chars),
            offset_buffers := mapInsert raw.offset_buffers field sb.offsets,
            array_data := mapRemoveKey raw.array_data field }
  | some (.prim _ _) => .panic

/-- `utf8_singleton`: slice the byte buffer up to the second offset and
decode.  Slices taken at string-array offsets are valid UTF-8 in this
code-point-granularity model. -/
def utf8_singleton (raw : RawData) (field : String) : Outcome String :=
  match mapLookup raw.buffers field with
  | none => .err (.fieldMissing field)
  | some b =>
      match mapLookup raw.offset_buffers field with
      | none => .err (.fieldMissing field)
      | some offsets =>
          match b with
          | .chars cs =>
              match offsets.get? 1 with
              | none => .err (.noOffset field)
              | some last => .ok (String.mk (cs.take last))
          | .typed _ _ => .panic

/-- `primitive_singleton::<UInt32Type>`: reinterpret the buffer and read
`slice[0]` — an uncatchable index-out-of-bounds fault when the buffer
is empty. -/
def primitive_singleton_u32 (raw : RawData) (field : String) : Outcome Nat :=
  match mapLookup raw.buffers field with
  | none => .err (.fieldMissing field)
  | some (.typed (.u32 vals) _) =>
      match vals with
      | [] => .panic
      | v :: _ => .ok v
  | some _ => .panic

/-- `primitive_array_view::<UInt8Type>`: borrow the buffer's contents,
never copying and never requiring exclusivity. -/
def primitive_array_view_u8 (raw : RawData) (field : String) :
    Outcome (List Nat) :=
  match mapLookup raw.buffers field with
  | none => .err (.fieldMissing field)
  | some (.typed (.u8 vals) _) => .ok vals
  | some _ => .panic

/-- `primitive_array::<UInt8Type>` (`&mut self`): remove the field's
buffer and try `Buffer::into_vec`, which succeeds only on an
exclusively held buffer of the right element type; on failure the
buffer handle is re-inserted and an error is returned.  Returns the
outcome together with the updated state. -/
def primitive_array_u8 (raw : RawData) (field : String) :
    Outcome (List Nat) × RawData :=
  match mapLookup raw.buffers field with
  | none =>
      (.err (.fieldMissing field),
       { raw with buffers := mapRemoveKey raw.buffers field })
  | some b =>
      let removed : RawData :=
        { raw with buffers := mapRemoveKey raw.buffers field }
      match b with
      | .typed (.u8 vals) shared =>
          if shared then
            (.err .bufferSharedOrInvalid,
             { removed with buffers := mapInsert removed.buffers field b })
          else (.ok vals, removed)
      | _ =>
          (.err .bufferSharedOrInvalid,
           { removed with buffers := mapInsert removed.buffers field b })

end RawData

/-! ## `ArrowDataViewer` (`libraries/converter/src/arrow/viewer.rs`) -/

/-- The borrowed viewer's decomposition state. -/
structure ArrowDataViewer where
  array_data : List (String × Child)
  buffers : List (String × RawBuf)
  offset_buffers : List (String × List Nat)
deriving DecidableEq, Repr

namespace ArrowDataViewer

/-- `ArrowDataViewer::new`: unpack the union into a name → child map. -/
def new (wire : Wire) : ArrowDataViewer :=
  { array_data := wire.foldl (fun m kv => mapInsert m kv.1 kv.2) [],
    buffers := [], offset_buffers := [] }

/-- `load_primitive::<T>` (idempotent registration of a field for
borrowed access). -/
def load_primitive (t : Tag) (v : ArrowDataViewer) (field : String) :
    Outcome ArrowDataViewer :=
  match mapLookup v.array_data field with
  | none => .err (.fieldMissing field)
  | some (.prim buf shared) =>
      if buf.tag = t then
        .ok { array_data := mapRemoveKey v.array_data field,
              buffers := mapInsert v.buffers field (.typed buf shared),
              offset_buffers := v.offset_buffers }
      else .panic
  | some (.strs _) => .panic

/-- `load_utf8`. -/
def load_utf8 (v : ArrowDataViewer) (field : String) :
    Outcome ArrowDataViewer :=
  match mapLookup v.array_data field with
  | none => .err (.fieldMissing field)
  | some (.strs sb) =>
      .ok { array_data := mapRemoveKey v.array_data field,
            buffers := mapInsert v.buffers field (.chars sb.chars),
            offset_buffers := mapInsert v.offset_buffers field sb.offsets }
  | some (.prim _ _) => .panic

/-- `utf8_singleton` (reads the child from `array_data`). -/
def utf8_singleton (v : ArrowDataViewer) (field : String) : Outcome String :=
  match mapLookup v.array_data field with
  | none => .err (.fieldMissing field)
  | some (.strs sb) =>
      match sb.offsets.get? 1 with
      | none => .err (.noOffset field)
      | some last => .ok (String.mk (sb.chars.take last))
  | some (.prim _ _) => .panic

/-- `primitive_array::<Float32Type>`: a zero-copy borrowed slice of the
loaded buffer. -/
def primitive_array_f32 (v : ArrowDataViewer) (field : String) :
    Outcome (List Rat) :=
  match mapLookup v.buffers field with
  | none => .err (.fieldMissing field)
  | some (.typed (.f32 vals) _) => .ok vals
  | some _ => .panic

/-- `utf8_array`: the borrowed string-array path is unimplemented in the
source — it returns `Err(eyre!("Not implemented"))` unconditionally. -/
def utf8_array (_v : ArrowDataViewer) (_field : String) :
    Outcome (List String) :=
  .err .notImplemented

end ArrowDataViewer

/-! ## `Image` (`libraries/datatypes/src/image.rs` and `image/*.rs`) -/

/-- `2 ^ 32`: modulus of `u32` wrapping arithmetic. -/
def U32MOD : Nat := 2 ^ 32

/-- `image::encoding::Encoding`. -/
inductive ImageEncoding where
  | RGB8
  | BGR8
  | GRAY8
deriving DecidableEq, Repr

namespace ImageEncoding

/-- The `Display` implementation. -/
def toString : ImageEncoding → String
  | RGB8 => "RGB8"
  | BGR8 => "BGR8"
  | GRAY8 => "GRAY8"

/-- `Encoding::from_string`. -/
def from_string (encoding : String) : Outcome ImageEncoding :=
  if encoding = "RGB8" then .ok RGB8
  else if encoding = "BGR8" then .ok BGR8
  else if encoding = "GRAY8" then .ok GRAY8
  else .err (.invalidEncoding encoding)

end ImageEncoding

/-- `image::data::ImageData`: a pixel payload in one of three element
types, each held as a `Cow`. -/
inductive ImageData where
  | u8 (cow : CowT Nat)
  | u16 (cow : CowT Nat)
  | f32 (cow : CowT Rat)
deriving DecidableEq, Repr

namespace ImageData

/-- `ImageData::into_u8`: `Cow::into_owned` of a `U8` payload. -/
def into_u8 : ImageData → Outcome (List Nat)
  | u8 cow => .ok cow.into_owned
  | _ => .err (.cantConvert "Can't convert data to u8")

/-- `ImageData::from_vec_u8`: a freshly owned buffer. -/
def from_vec_u8 (data : List Nat) : ImageData := u8 (.owned data)

/-- `ImageData::from_slice_u8`: a borrowed view. -/
def from_slice_u8 (data : List Nat) : ImageData := u8 (.borrowed data)

end ImageData

/-- `image::Image`.  `width` and `height` hold the value of the `u32`
fields. -/
structure Image where
  data : ImageData
  width : Nat
  height : Nat
  encoding : ImageEncoding
  name : Option String
deriving DecidableEq, Repr

namespace Image

/-- `Image::new_bgr8`: the guard is
`width * height * 3 != data.len() as u32`, computed in `u32` — the
product wraps modulo `2 ^ 32` and the length is truncated to `u32`. -/
def new_bgr8 (data : List Nat) (width height : Nat) (name : Option String) :
    Outcome Image :=
  if (width * height % U32MOD) * 3 % U32MOD ≠ data.length % U32MOD then
    .err (.lengthMismatch
      "Width, height and BGR8 encoding doesn't match data length.")
  else
    .ok { data := ImageData.from_vec_u8 data, width, height,
          encoding := .BGR8, name }

/-- `Image::new_rgb8`: the guard is
`data.len() != (width * height * 3) as usize` — the product wraps in
`u32`, the length is compared at full width. -/
def new_rgb8 (data : List Nat) (width height : Nat) (name : Option String) :
    Outcome Image :=
  if data.length ≠ (width * height % U32MOD) * 3 % U32MOD then
    .err (.lengthMismatch "Invalid pixel data length.")
  else
    .ok { data := ImageData.from_vec_u8 data, width, height,
          encoding := .RGB8, name }

/-- `Image::new_gray8`: the guard is
`data.len() != (width * height) as usize`. -/
def new_gray8 (data : List Nat) (width height : Nat) (name : Option String) :
    Outcome Image :=
  if data.length ≠ width * height % U32MOD then
    .err (.lengthMismatch "Invalid data data length.")
  else
    .ok { data := ImageData.from_vec_u8 data, width, height,
          encoding := .GRAY8, name }

/-- One `Vec::swap(i, j)` with both elements read before either write;
callers have checked the bounds. -/
def listSwap (l : List Nat) (i j : Nat) : List Nat :=
  (l.set i (l.getD j 0)).set j (l.getD i 0)

/-- The channel-swap loop
`for i in (0..data.len()).step_by(3) { data.swap(i, i + 2); }` —
`Vec::swap` panics when `i + 2` is out of bounds. -/
def swapLoop (l : List Nat) (i : Nat) : Outcome (List Nat) :=
  if i < l.length then
    if i + 2 < l.length then swapLoop (listSwap l i (i + 2)) (i + 3)
    else .panic
  else .ok l
termination_by l.length - i
decreasing_by
  simp only [listSwap, List.length_set]
  omega

/-- Chunk-level form of the channel-swap loop: reverse the first and
third byte of every triple.  Proved equal to `swapLoop` on arrays whose
length is a multiple of three. -/
def swapChunks : List Nat → List Nat
  | b :: g :: r :: rest => r :: g :: b :: swapChunks rest
  | l => l

/-- `Image::into_rgb8`. -/
def into_rgb8 (img : Image) : Outcome Image :=
  match img.encoding with
  | .BGR8 =>
      (img.data.into_u8).bind fun data =>
      (swapLoop data 0).bind fun data =>
      .ok { data := ImageData.from_vec_u8 data, width := img.width,
            height := img.height, encoding := .RGB8, name := img.name }
  | .RGB8 => .ok img
  | _ => .err (.cantConvert "Can't convert image to RGB8")

/-- `Image::into_bgr8`. -/
def into_bgr8 (img : Image) : Outcome Image :=
  match img.encoding with
  | .RGB8 =>
      (img.data.into_u8).bind fun data =>
      (swapLoop data 0).bind fun data =>
      .ok { data := ImageData.from_vec_u8 data, width := img.width,
            height := img.height, encoding := .BGR8, name := img.name }
  | .BGR8 => .ok img
  | _ => .err (.cantConvert "Can't convert image to BGR8")

/-- `Image::raw_data` (`image/arrow.rs`): decompose the wire record and
load the image schema's fields, dispatching the pixel load on the
decoded encoding tag. -/
def raw_data (wire : Wire) : Outcome RawData :=
  (RawData.load_primitive .u32 (RawData.new wire) "width").bind fun rd =>
  (RawData.load_primitive .u32 rd "height").bind fun rd =>
  (rd.load_utf "encoding").bind fun rd =>
  (rd.load_utf "name").bind fun rd =>
  (rd.utf8_singleton "encoding").bind fun s =>
  (ImageEncoding.from_string s).bind fun encoding =>
  match encoding with
  | .RGB8 => RawData.load_primitive .u8 rd "data"
  | .BGR8 => RawData.load_primitive .u8 rd "data"
  | .GRAY8 => RawData.load_primitive .u8 rd "data"

/-- `Image::from_raw_data`: reclaim every field as owned. -/
def from_raw_data (rd : RawData) : Outcome Image :=
  (rd.primitive_singleton_u32 "width").bind fun width =>
  (rd.primitive_singleton_u32 "height").bind fun height =>
  (rd.utf8_singleton "encoding").bind fun s =>
  (ImageEncoding.from_string s).bind fun encoding =>
  (rd.utf8_singleton "name").bind fun n =>
  let name := (some n).filter (fun s => !s.isEmpty)
  (match encoding with
   | .RGB8 => (rd.primitive_array_u8 "data").1
   | .BGR8 => (rd.primitive_array_u8 "data").1
   | .GRAY8 => (rd.primitive_array_u8 "data").1).bind fun data =>
  .ok { data := ImageData.from_vec_u8 data, width, height, encoding, name }

/-- `Image::from_arrow`. -/
def from_arrow (wire : Wire) : Outcome Image :=
  (raw_data wire).bind from_raw_data

/-- `Image::into_arrow`: push width, height, encoding tag and name (an
absent name is written as `""`), then the pixel data. -/
def into_arrow (img : Image) : Outcome Wire :=
  let b :=
    (((Builder.push_primitive_singleton_u32 [] "width" img.width
      ).push_primitive_singleton_u32 "height" img.height
      ).push_utf_singleton "encoding" img.encoding.toString
      ).push_utf_singleton "name" (img.name.getD "")
  (match img.encoding with
   | .RGB8 => (img.data.into_u8).bind fun d =>
       .ok (b.push_primitive_array_u8 "data" d)
   | .BGR8 => (img.data.into_u8).bind fun d =>
       .ok (b.push_primitive_array_u8 "data" d)
   | .GRAY8 => (img.data.into_u8).bind fun d =>
       .ok (b.push_primitive_array_u8 "data" d)).bind Builder.into_arrow

end Image

/-! ## `BBox` (`libraries/datatypes/src/bbox.rs` and `bbox/*.rs`) -/

/-- `bbox::encoding::Encoding`. -/
inductive BBoxEncoding where
  | XYXY
  | XYWH
deriving DecidableEq, Repr

namespace BBoxEncoding

/-- The `Display` implementation. -/
def toString : BBoxEncoding → String
  | XYXY => "XYXY"
  | XYWH => "XYWH"

/-- `Encoding::from_string`. -/
def from_string (encoding : String) : Outcome BBoxEncoding :=
  if encoding = "XYXY" then .ok XYXY
  else if encoding = "XYWH" then .ok XYWH
  else .err (.invalidEncoding encoding)

end BBoxEncoding

/-- `bbox::BBox`.  `f32` coordinates are carried as `Rat`; the
conversions below only add and subtract values, and the concrete claims
use exactly representable inputs. -/
structure BBox where
  data : CowT Rat
  confidence : CowT Rat
  label : List String
  encoding : BBoxEncoding
deriving DecidableEq, Repr

namespace BBox

/-- `BBox::new_xyxy` (`bbox/xyxy.rs`). -/
def new_xyxy (data confidence : List Rat) (label : List String) :
    Outcome BBox :=
  if confidence.length ≠ label.length ∨ confidence.length * 4 ≠ data.length
  then .err (.lengthMismatch "Confidence, Label and Data doesn't match length")
  else .ok { data := .owned data, confidence := .owned confidence, label,
             encoding := .XYXY }

/-- `BBox::new_xywh` (`bbox/xywh.rs`). -/
def new_xywh (data confidence : List Rat) (label : List String) :
    Outcome BBox :=
  if confidence.length ≠ label.length ∨ confidence.length * 4 ≠ data.length
      ∨ label.length * 4 ≠ data.length
  then .err (.lengthMismatch "Confidence, Label and Data doesn't match length")
  else .ok { data := .owned data, confidence := .owned confidence, label,
             encoding := .XYWH }

/-- The loop of `into_xyxy`: for each box `i < n`, read
`(x, y, w, h)` at `i*4..` (an error when any index is out of range)
and write `x + w` and `y + h` back at `i*4 + 2` and `i*4 + 3`. -/
def xyxyLoop (n : Nat) (data : List Rat) (i : Nat) : Outcome (List Rat) :=
  if i < n then
    match data.get? (i * 4), data.get? (i * 4 + 1),
        data.get? (i * 4 + 2), data.get? (i * 4 + 3) with
    | some x, some y, some w, some h =>
        xyxyLoop n ((data.set (i * 4 + 2) (x + w)).set (i * 4 + 3) (y + h))
          (i + 1)
    | _, _, _, _ => .err .notEnoughData
  else .ok data
termination_by n - i

/-- The loop of `into_xywh`: for each box `i < n`, read
`(x1, y1, x2, y2)` and write `x2 - x1` and `y2 - y1` back at
`i*4 + 2` and `i*4 + 3`. -/
def xywhLoop (n : Nat) (data : List Rat) (i : Nat) : Outcome (List Rat) :=
  if i < n then
    match data.get? (i * 4), data.get? (i * 4 + 1),
        data.get? (i * 4 + 2), data.get? (i * 4 + 3) with
    | some x1, some y1, some x2, some y2 =>
        xywhLoop n ((data.set (i * 4 + 2) (x2 - x1)).set (i * 4 + 3) (y2 - y1))
          (i + 1)
    | _, _, _, _ => .err .notEnoughData
  else .ok data
termination_by n - i

/-- `BBox::into_xyxy` (`bbox.rs`): on an `XYWH` value, `to_mut` the data
`Cow` (cloning a borrowed payload) and run the conversion loop; the
result keeps `encoding: self.encoding` — the tag is NOT updated.  On an
`XYXY` value, return `self` unchanged. -/
def into_xyxy (b : BBox) : Outcome BBox :=
  match b.encoding with
  | .XYWH =>
      (xyxyLoop b.confidence.toList.length b.data.toList 0).bind fun data =>
      .ok { data := .owned data, confidence := b.confidence,
            label := b.label, encoding := b.encoding }
  | .XYXY => .ok b

/-- `BBox::into_xywh` (`bbox.rs`): on an `XYXY` value, `to_mut` the data
`Cow` and run the conversion loop; the result keeps
`encoding: self.encoding` — the tag is NOT updated.  On an `XYWH`
value, return `self` unchanged. -/
def into_xywh (b : BBox) : Outcome BBox :=
  match b.encoding with
  | .XYXY =>
      (xywhLoop b.confidence.toList.length b.data.toList 0).bind fun data =>
      .ok { data := .owned data, confidence := b.confidence,
            label := b.label, encoding := b.encoding }
  | .XYWH => .ok b

/-- `BBox::view_arrow` (`bbox/arrow.rs`): borrow `data` and
`confidence`, then read `label` through the viewer's `utf8_array`. -/
def view_arrow (v : ArrowDataViewer) : Outcome BBox :=
  (v.primitive_array_f32 "data").bind fun data =>
  (v.primitive_array_f32 "confidence").bind fun confidence =>
  (v.utf8_array "label").bind fun label =>
  (v.utf8_singleton "encoding").bind fun s =>
  (BBoxEncoding.from_string s).bind fun encoding =>
  .ok { data := .borrowed data, confidence := .borrowed confidence,
        label, encoding }

end BBox

/-! ## Basic lemmas -/

@[simp] theorem Outcome.bind_ok {α β : Type} (v : α) (f : α → Outcome β) :
    Outcome.bind (.ok v) f = f v := rfl

@[simp] theorem Outcome.bind_err {α β : Type} (e : Err) (f : α → Outcome β) :
    Outcome.bind (.err e) f = .err e := rfl

@[simp] theorem Outcome.bind_panic {α β : Type} (f : α → Outcome β) :
    Outcome.bind .panic f = .panic := rfl

@[simp] theorem CowT.toList_borrowed {α : Type} (l : List α) :
    CowT.toList (.borrowed l) = l := rfl

@[simp] theorem CowT.toList_owned {α : Type} (l : List α) :
    CowT.toList (.owned l) = l := rfl

@[simp] theorem CowT.into_owned_eq_toList {α : Type} (c : CowT α) :
    c.into_owned = c.toList := by cases c <;> rfl

@[simp] theorem mapLookup_nil {α : Type} (key : String) :
    mapLookup ([] : List (String × α)) key = none := rfl

@[simp] theorem mapLookup_cons {α : Type} (k : String) (v : α)
    (rest : List (String × α)) (key : String) :
    mapLookup ((k, v) :: rest) key =
      if k = key then some v else mapLookup rest key := rfl

theorem mapLookup_removeKey_self {α : Type} (m : List (String × α))
    (key : String) : mapLookup (mapRemoveKey m key) key = none := by
  induction m with
  | nil => rfl
  | cons p rest ih =>
      by_cases h : p.1 = key
      · simpa [mapRemoveKey, List.filter, h] using ih
      · simpa [mapRemoveKey, List.filter, h, mapLookup] using ih

@[simp] theorem mapLookup_insert_self {α : Type} (m : List (String × α))
    (key : String) (v : α) : mapLookup (mapInsert m key v) key = some v := by
  simp [mapInsert, mapLookup]

/-- Rebuilding a string from its character data is the identity. -/
theorem stringMk_data (s : String) : String.mk s.data = s := rfl

/-- Taking `s.length` characters of a string's data is the identity
(`String.length` counts the characters of `s.data`). -/
theorem take_length_data (s : String) : List.take s.length s.data = s.data :=
  List.take_length s.data

/-- The backing stores of a one-string `StringArray`. -/
theorem stringArrayFrom_singleton (s : String) :
    stringArrayFrom [s] = { chars := s.data, offsets := [0, s.data.length] } := by
  simp [stringArrayFrom, offsetsFrom]

/-! ## C9 — the borrowed viewer's `utf8_array` is unimplemented -/

/-- C9: for every viewer state and every field name, the Borrowed
Viewer's `utf8_array` returns an error (the "Not implemented" report)
and never returns a vector of strings. -/
theorem c9_viewer_utf8_array_unimplemented (v : ArrowDataViewer)
    (field : String) :
    v.utf8_array field = .err .notImplemented := rfl

/-! ## C10 — `BBox::view_arrow` can never produce a value -/

/-- C10: for every viewer state, the borrowed-view decode of a bounding
box never yields a `BBox`: reading the `label` field goes through the
viewer's `utf8_array`, which unconditionally errors, so `view_arrow`
propagates an error on every input. -/
theorem c10_view_arrow_never_ok (v : ArrowDataViewer) (b : BBox) :
    BBox.view_arrow v ≠ .ok b := by
  unfold BBox.view_arrow
  cases h1 : v.primitive_array_f32 "data" with
  | ok d =>
      cases h2 : v.primitive_array_f32 "confidence" with
      | ok c => simp [ArrowDataViewer.utf8_array]
      | err e => simp
      | panic => simp
  | err e => simp
  | panic => simp

/-! ## C4 — owned extraction of a shared buffer fails cleanly -/

/-- C4: if a field's buffer is shared (reference count greater than
one), `primitive_array` returns an error, the buffer handle is put back
into the extractor's state, and a subsequent `primitive_array_view` of
the same field on the resulting state still succeeds with the buffer's
contents. -/
theorem c4_shared_buffer_put_back (raw : RawData) (field : String)
    (vals : List Nat)
    (hbuf : mapLookup raw.buffers field = some (.typed (.u8 vals) true)) :
    (raw.primitive_array_u8 field).1 = .err .bufferSharedOrInvalid ∧
    mapLookup (raw.primitive_array_u8 field).2.buffers field
      = some (.typed (.u8 vals) true) ∧
    (raw.primitive_array_u8 field).2.primitive_array_view_u8 field
      = .ok vals := by
  simp [RawData.primitive_array_u8, hbuf, RawData.primitive_array_view_u8]

/-- Witness for C4 at a concrete extractor state holding a shared
one-byte buffer. -/
theorem c4_shared_buffer_put_back_witness :
    mapLookup (RawData.mk [("data", .typed (.u8 [7]) true)] [] []).buffers
        "data" = some (.typed (.u8 [7]) true) ∧
    ((RawData.mk [("data", .typed (.u8 [7]) true)] [] []).primitive_array_u8
        "data").1 = .err .bufferSharedOrInvalid ∧
    mapLookup ((RawData.mk [("data", .typed (.u8 [7]) true)] []
        []).primitive_array_u8 "data").2.buffers "data"
      = some (.typed (.u8 [7]) true) ∧
    ((RawData.mk [("data", .typed (.u8 [7]) true)] []
        []).primitive_array_u8 "data").2.primitive_array_view_u8 "data"
      = .ok [7] :=
  ⟨by decide, c4_shared_buffer_put_back _ "data" [7] (by decide)⟩

/-! ## C5 — an owned slot, once extracted, is consumed -/

/-- C5: if `primitive_array` succeeds once on a field, a second call on
the resulting state fails with the field-missing error. -/
theorem c5_slot_consumed (raw : RawData) (field : String) (v : List Nat)
    (raw' : RawData)
    (h : raw.primitive_array_u8 field = (.ok v, raw')) :
    (raw'.primitive_array_u8 field).1 = .err (.fieldMissing field) := by
  unfold RawData.primitive_array_u8 at h
  cases hl : mapLookup raw.buffers field with
  | none => rw [hl] at h; simp at h
  | some b =>
      rw [hl] at h
      match b with
      | .typed (.u8 vals) shared =>
          cases shared with
          | true => simp at h
          | false =>
              simp only [Bool.false_eq_true, if_false, Prod.mk.injEq,
                Outcome.ok.injEq] at h
              obtain ⟨-, h2⟩ := h
              subst h2
              unfold RawData.primitive_array_u8
              rw [mapLookup_removeKey_self]
      | .typed (.u32 vals) shared => simp at h
      | .typed (.f32 vals) shared => simp at h
      | .chars cs => simp at h

/-- Witness for C5 at a concrete extractor state holding an exclusively
owned buffer. -/
theorem c5_slot_consumed_witness :
    (RawData.mk [("data", .typed (.u8 [3, 4]) false)] []
        []).primitive_array_u8 "data"
      = (.ok [3, 4], RawData.mk [] [] []) ∧
    ((RawData.mk [] [] []).primitive_array_u8 "data").1
      = .err (.fieldMissing "data") :=
  ⟨by decide,
   c5_slot_consumed (RawData.mk [("data", .typed (.u8 [3, 4]) false)] [] [])
     "data" [3, 4] (RawData.mk [] [] []) (by decide)⟩

/-! ## C8 — `primitive_singleton` on an empty buffer -/

/-- C8 failing input: push a zero-length `u32` array under field `"x"`,
decompose, load the field, then read it with `primitive_singleton`.
The source computes `slice[0]` on the empty reinterpreted slice, an
uncatchable index-out-of-bounds panic — not the typed error the claim
requires. -/
theorem c8_empty_singleton_panics :
    (RawData.load_primitive .u32
        (RawData.new (Builder.push_primitive_array_u32 [] "x" [])) "x").bind
      (fun rd => rd.primitive_singleton_u32 "x") = .panic := by decide

/-! ## C2 — the XYXY → XYWH → XYXY concrete scenario -/

/-- C2 evaluation at the claim's input: `new_xyxy([1,1,2,2],[0.98],["cat"])`
followed by `into_xywh` yields data `[1,1,1,1]` as claimed, but the
result's encoding tag is still `XYXY` (`into_xywh` returns
`encoding: self.encoding`), so the subsequent `into_xyxy` hits its
`Encoding::XYXY => Ok(self)` arm and returns the value unchanged: the
final data is `[1,1,1,1]`, not the `[1,1,2,2]` the claim requires. -/
theorem c2_roundtrip_fails_at_claim_input :
    (BBox.new_xyxy [1, 1, 2, 2] [49/50] ["cat"]).bind BBox.into_xywh
      = .ok { data := .owned [1, 1, 1, 1], confidence := .owned [49/50],
              label := ["cat"], encoding := .XYXY } ∧
    ((BBox.new_xyxy [1, 1, 2, 2] [49/50] ["cat"]).bind BBox.into_xywh).bind
        BBox.into_xyxy
      = .ok { data := .owned [1, 1, 1, 1], confidence := .owned [49/50],
              label := ["cat"], encoding := .XYXY } := by
  have h : (BBox.new_xyxy [1, 1, 2, 2] [49/50] ["cat"]).bind BBox.into_xywh
      = .ok { data := .owned [1, 1, 1, 1], confidence := .owned [49/50],
              label := ["cat"], encoding := .XYXY } := by
    norm_num [BBox.new_xyxy, BBox.into_xywh, BBox.xywhLoop, Outcome.bind,
      CowT.toList, List.get?]
  exact ⟨h, by rw [h]; rfl⟩

/-! ## C7 — `new_bgr8` length validation arithmetic -/

/-- C7 counterexample: the guard `width * height * 3 != data.len() as u32`
is computed in `u32`.  With `width = 1431655766`, `height = 1` and a
2-element data vector, the exact product is `4294967298 ≠ 2`, yet
`4294967298 ≡ 2 (mod 2^32)`, so the constructor succeeds — refuting
"succeeds exactly when `data.len()` equals `width*height*3` computed
over exact (unbounded) integers". -/
theorem c7_new_bgr8_overflow_counterexample :
    Image.new_bgr8 [0, 0] 1431655766 1 none
      = .ok { data := ImageData.from_vec_u8 [0, 0], width := 1431655766,
              height := 1, encoding := .BGR8, name := none } ∧
    1431655766 * 1 * 3 ≠ ([0, 0] : List Nat).length := by decide

/-- C7 amended: `new_bgr8` succeeds exactly when
`width * height * 3` and `data.len()` agree modulo `2 ^ 32` (the `u32`
wrapping product compared against the length truncated to `u32`), and
fails with the length-mismatch error otherwise. -/
theorem c7_new_bgr8_characterization (d : List Nat) (w h : Nat)
    (nm : Option String) :
    Image.new_bgr8 d w h nm =
      if w * h * 3 % U32MOD = d.length % U32MOD then
        .ok { data := ImageData.from_vec_u8 d, width := w, height := h,
              encoding := .BGR8, name := nm }
      else
        .err (.lengthMismatch
          "Width, height and BGR8 encoding doesn't match data length.") := by
  unfold Image.new_bgr8
  have hm : w * h % U32MOD * 3 % U32MOD = w * h * 3 % U32MOD :=
    Nat.mod_mul_mod
  rw [hm]
  rcases eq_or_ne (w * h * 3 % U32MOD) (d.length % U32MOD) with hC | hC <;>
    simp [hC]

/-! ## C3 — mutating conversions are copy-on-write -/

/-- C3: `into_xywh` on an `XYXY` box reads the data payload (whether
`borrowed` or `owned`), and — whenever the conversion loop succeeds —
returns a payload held in an `owned` buffer containing the transformed
values.  In this pure embedding of `Cow::to_mut`, a `borrowed` input
buffer is only ever read (the source list is untouched), and the
returned payload is an `owned` vector, never the `borrowed` handle: a
fresh allocation distinct from the original buffer.  An already-`owned`
input is mutated into the same `owned` container with no borrowed
buffer involved at any point. -/
theorem c3_into_xywh_copy_on_write (c conf : CowT Rat) (lab : List String)
    (out : List Rat)
    (hloop : BBox.xywhLoop conf.toList.length c.toList 0 = .ok out) :
    BBox.into_xywh
        { data := c, confidence := conf, label := lab, encoding := .XYXY }
      = .ok { data := .owned out, confidence := conf, label := lab,
              encoding := .XYXY } ∧
    ∀ m : List Rat, (CowT.owned out : CowT Rat) ≠ .borrowed m := by
  refine ⟨?_, fun m hm => by cases hm⟩
  simp [BBox.into_xywh, hloop]

/-- Witness for C3: a borrowed one-box `[1,1,2,2]` payload converts to a
fresh owned `[1,1,1,1]` buffer. -/
theorem c3_into_xywh_copy_on_write_witness :
    BBox.xywhLoop (CowT.toList (α := Rat) (.owned [49/50])).length
        (CowT.toList (.borrowed [1, 1, 2, 2])) 0 = .ok [1, 1, 1, 1] ∧
    (BBox.into_xywh
        { data := .borrowed [1, 1, 2, 2], confidence := .owned [49/50],
          label := ["cat"], encoding := .XYXY }
      = .ok { data := .owned [1, 1, 1, 1], confidence := .owned [49/50],
              label := ["cat"], encoding := .XYXY } ∧
    ∀ m : List Rat, (CowT.owned [1, 1, 1, 1] : CowT Rat) ≠ .borrowed m) :=
  have hloop : BBox.xywhLoop
      (CowT.toList (α := Rat) (.owned [49/50])).length
      (CowT.toList (.borrowed [1, 1, 2, 2])) 0 = .ok [1, 1, 1, 1] := by
    norm_num [BBox.xywhLoop, List.get?, CowT.toList]
  ⟨hloop,
   c3_into_xywh_copy_on_write (.borrowed [1, 1, 2, 2]) (.owned [49/50])
     ["cat"] [1, 1, 1, 1] hloop⟩

/-! ## C6 — the channel swap is an involution -/

/-- One swap of a triple sitting right after a prefix `p`. -/
theorem listSwap_cons (a : Nat) (l : List Nat) (i j : Nat) :
    Image.listSwap (a :: l) (i + 1) (j + 1) = a :: Image.listSwap l i j := by
  simp [Image.listSwap, List.getD]

/-- `Vec::swap(p.len(), p.len() + 2)` on `p ++ [b, g, r] ++ t` reverses
the triple in place. -/
theorem listSwap_append (p : List Nat) (b g r : Nat) (t : List Nat) :
    Image.listSwap (p ++ b :: g :: r :: t) p.length (p.length + 2)
      = p ++ r :: g :: b :: t := by
  induction p with
  | nil => rfl
  | cons a p ih =>
      have : (a :: p).length = p.length + 1 := rfl
      rw [List.cons_append, this, show p.length + 1 + 2 = p.length + 2 + 1
        from rfl, listSwap_cons, ih, List.cons_append]

/-- The step-by-3 swap loop started after a processed prefix `p`
computes the chunk-level swap of the remaining array, provided the
remainder's length is a multiple of three. -/
theorem swapLoop_append :
    ∀ rest p : List Nat, rest.length % 3 = 0 →
      Image.swapLoop (p ++ rest) p.length = .ok (p ++ Image.swapChunks rest)
  | [], p, _ => by
      rw [List.append_nil]
      unfold Image.swapLoop
      simp [Image.swapChunks]
  | [b], p, h => by simp at h
  | [b, g], p, h => by simp at h
  | b :: g :: r :: t, p, h => by
      have hlen : p.length < (p ++ b :: g :: r :: t).length := by
        simp
      have hlen2 : p.length + 2 < (p ++ b :: g :: r :: t).length := by
        simp
      have ht : t.length % 3 = 0 := by
        simp only [List.length_cons] at h
        omega
      have ih := swapLoop_append t (p ++ [r, g, b]) ht
      unfold Image.swapLoop
      rw [if_pos hlen, if_pos hlen2, listSwap_append,
        show p ++ r :: g :: b :: t = (p ++ [r, g, b]) ++ t by simp,
        show p.length + 3 = ((p ++ [r, g, b]) : List Nat).length by simp,
        ih]
      simp [Image.swapChunks]

/-- The chunk-level swap preserves length. -/
theorem length_swapChunks :
    ∀ l : List Nat, (Image.swapChunks l).length = l.length
  | [] => rfl
  | [b] => rfl
  | [b, g] => rfl
  | b :: g :: r :: t => by
      simp [Image.swapChunks, length_swapChunks t]

/-- The chunk-level swap is an involution. -/
theorem swapChunks_swapChunks :
    ∀ l : List Nat, Image.swapChunks (Image.swapChunks l) = l
  | [] => rfl
  | [b] => rfl
  | [b, g] => rfl
  | b :: g :: r :: t => by
      simp [Image.swapChunks, swapChunks_swapChunks t]

/-- C6: on a BGR8 image whose pixel array's length is a multiple of
three, `into_rgb8` followed by `into_bgr8` returns exactly the original
pixel byte array (the two channel swaps compose to the identity). -/
theorem c6_bgr8_rgb8_roundtrip (c : CowT Nat) (h3 : c.toList.length % 3 = 0)
    (w hgt : Nat) (nm : Option String) :
    (Image.into_rgb8
        { data := .u8 c, width := w, height := hgt, encoding := .BGR8,
          name := nm }).bind Image.into_bgr8
      = .ok { data := ImageData.from_vec_u8 c.toList, width := w,
              height := hgt, encoding := .BGR8, name := nm } := by
  have h1 := swapLoop_append c.toList [] h3
  have h2len : (Image.swapChunks c.toList).length % 3 = 0 := by
    rw [length_swapChunks]; exact h3
  have h2 := swapLoop_append (Image.swapChunks c.toList) [] h2len
  simp only [List.nil_append, List.length_nil] at h1 h2
  simp [Image.into_rgb8, Image.into_bgr8, ImageData.into_u8,
    ImageData.from_vec_u8, h1, h2, swapChunks_swapChunks]

/-- Witness for C6 on the 3-byte array `[0, 1, 2]`. -/
theorem c6_bgr8_rgb8_roundtrip_witness :
    (CowT.toList (α := Nat) (.owned [0, 1, 2])).length % 3 = 0 ∧
    (Image.into_rgb8
        { data := .u8 (.owned [0, 1, 2]), width := 1, height := 1,
          encoding := .BGR8, name := none }).bind Image.into_bgr8
      = .ok { data := ImageData.from_vec_u8
                (CowT.toList (α := Nat) (.owned [0, 1, 2])), width := 1,
              height := 1, encoding := .BGR8, name := none } :=
  ⟨by decide, c6_bgr8_rgb8_roundtrip (.owned [0, 1, 2]) (by decide) 1 1 none⟩

/-! ## C1 — Image wire round trip -/

/-- Symbolic evaluation of the full Image pipeline: encoding an image
whose payload is an owned `u8` vector and decoding the wire record as
owned reproduces every field, with the name passing through the
`"" ⇔ absent` wire convention. -/
theorem image_pipeline_eval (d : List Nat) (w h : Nat)
    (enc : ImageEncoding) (nm : Option String) :
    (Image.into_arrow
        { data := .u8 (.owned d), width := w, height := h, encoding := enc,
          name := nm }).bind Image.from_arrow
      = .ok { data := .u8 (.owned d), width := w, height := h,
              encoding := enc,
              name := (some (nm.getD "")).filter (fun s => !s.isEmpty) } := by
  cases enc <;> cases nm <;>
    simp [Image.into_arrow, Image.from_arrow, Image.raw_data,
      Image.from_raw_data, Builder.push_primitive_singleton_u32,
      Builder.push_primitive_array_u8, Builder.push_utf_singleton,
      Builder.into_arrow, RawData.new, RawData.load_primitive,
      RawData.load_utf, RawData.utf8_singleton,
      RawData.primitive_singleton_u32, RawData.primitive_array_u8,
      mapInsert, mapRemoveKey, mapLookup, Outcome.bind,
      ImageEncoding.toString, ImageEncoding.from_string, ImageData.into_u8,
      ImageData.from_vec_u8, CowT.into_owned, stringArrayFrom_singleton,
      TypedBuf.tag, List.filter, stringMk_data, take_length_data,
      Option.filter]

/-- C1: every valid Image built by `new_rgb8`, `new_bgr8` or `new_gray8`
whose name is not the empty string survives the wire round trip exactly:
`Image::from_arrow(v.into_arrow())` returns `v` field-by-field in data,
width, height, encoding and name.  (A name of `None` is carried on the
wire as `""` and decodes back to `None`; per that same convention a
constructed name of `Some ""` — the one excluded input — also decodes
to `None`.) -/
theorem c1_image_wire_roundtrip (d : List Nat) (w h : Nat)
    (nm : Option String) (img : Image) (hname : nm ≠ some "")
    (hmk : Image.new_rgb8 d w h nm = .ok img ∨
      Image.new_bgr8 d w h nm = .ok img ∨
      Image.new_gray8 d w h nm = .ok img) :
    (Image.into_arrow img).bind Image.from_arrow = .ok img := by
  have hfilter : (some (nm.getD "")).filter (fun s => !s.isEmpty) = nm := by
    cases nm with
    | none => rfl
    | some s =>
        have hs : s ≠ "" := fun e => hname (by rw [e])
        have hse : s.isEmpty = false := by
          rw [Bool.eq_false_iff]
          intro hh
          exact hs ((String.isEmpty_iff s).mp hh)
        simp [Option.filter, hse]
  rcases hmk with hmk | hmk | hmk
  · unfold Image.new_rgb8 at hmk
    split at hmk
    · simp at hmk
    · simp only [Outcome.ok.injEq] at hmk
      subst hmk
      have := image_pipeline_eval d w h .RGB8 nm
      rw [hfilter] at this
      exact this
  · unfold Image.new_bgr8 at hmk
    split at hmk
    · simp at hmk
    · simp only [Outcome.ok.injEq] at hmk
      subst hmk
      have := image_pipeline_eval d w h .BGR8 nm
      rw [hfilter] at this
      exact this
  · unfold Image.new_gray8 at hmk
    split at hmk
    · simp at hmk
    · simp only [Outcome.ok.injEq] at hmk
      subst hmk
      have := image_pipeline_eval d w h .GRAY8 nm
      rw [hfilter] at this
      exact this

/-- Witness for C1: a 1×1 RGB8 image named `"camera"` round trips. -/
theorem c1_image_wire_roundtrip_witness :
    (some "camera" : Option String) ≠ some "" ∧
    Image.new_rgb8 [9, 8, 7] 1 1 (some "camera")
      = .ok { data := ImageData.from_vec_u8 [9, 8, 7], width := 1,
              height := 1, encoding := .RGB8, name := some "camera" } ∧
    (Image.into_arrow
        { data := ImageData.from_vec_u8 [9, 8, 7], width := 1, height := 1,
          encoding := .RGB8, name := some "camera" }).bind Image.from_arrow
      = .ok { data := ImageData.from_vec_u8 [9, 8, 7], width := 1,
              height := 1, encoding := .RGB8, name := some "camera" } :=
  ⟨by decide, by decide,
   c1_image_wire_roundtrip [9, 8, 7] 1 1 (some "camera")
     { data := ImageData.from_vec_u8 [9, 8, 7], width := 1, height := 1,
       encoding := .RGB8, name := some "camera" }
     (by decide) (.inl (by decide))⟩

end FastFormat
